import Mathlib

/-!
Shallow embedding of the EMR-on-EKS Airflow plugin (emr_containers package):
the hook (EMRContainerHook), the operator (EMRContainerOperator) and the
sensor (EMRContainerSensor).  Remote interactions (describe_job_run,
start_job_run, cancel_job_run) are modelled by explicit value types describing
the observable outcome of each remote call; the Python control flow over those
outcomes is translated function-by-function from the source.
-/

/-- The job-run states of the remote EMR containers service, as used by the
string constants in src/emr_containers/hooks/emr_containers.py. -/
inductive JobState where
  | PENDING
  | SUBMITTED
  | RUNNING
  | FAILED
  | CANCELLED
  | CANCEL_PENDING
  | COMPLETED
  deriving DecidableEq

/-- Hook constant INTERMEDIATE_STATES = ("PENDING", "SUBMITTED", "RUNNING"). -/
def EMRContainerHook.INTERMEDIATE_STATES : List JobState :=
  [.PENDING, .SUBMITTED, .RUNNING]

/-- Hook constant FAILURE_STATES = ("FAILED", "CANCELLED", "CANCEL_PENDING"). -/
def EMRContainerHook.FAILURE_STATES : List JobState :=
  [.FAILED, .CANCELLED, .CANCEL_PENDING]

/-- Hook constant SUCCESS_STATES = ("COMPLETED",). -/
def EMRContainerHook.SUCCESS_STATES : List JobState :=
  [.COMPLETED]

/-- Terminal states in the sense of the spec: the success set together with the
failure set (every state outside INTERMEDIATE_STATES). -/
def TERMINAL_STATES : List JobState :=
  [.COMPLETED, .FAILED, .CANCELLED, .CANCEL_PENDING]

/-- Observable outcome of one describe_job_run call as seen by
check_query_status: a state payload, a ResourceNotFoundException, or a generic
botocore ClientError. -/
inductive DescribeResult where
  | ok (state : JobState)
  | notFound
  | clientError
  deriving DecidableEq

/-- EMRContainerHook.check_query_status: returns the state from the response,
raises AirflowException (modelled as Except.error) on
ResourceNotFoundException, and swallows a generic ClientError returning None. -/
def EMRContainerHook.check_query_status : DescribeResult → Except Unit (Option JobState)
  | .ok s => .ok (some s)
  | .notFound => .error ()
  | .clientError => .ok none

/-- Result of one poll_query_status run: normal return of final_query_state
together with the final try_number, the AirflowException propagated from
check_query_status, or ranOut when the supplied finite list of describe
outcomes was exhausted with the loop still running (the Python loop would keep
polling past the end of the modelled observation sequence). -/
inductive PollResult where
  | done (finalQueryState : Option JobState) (attemptsUsed : Nat)
  | raisedNotFound (attemptsUsed : Nat)
  | ranOut
  deriving DecidableEq

/-- Python truthiness of the Optional[int] max_tries argument: None and 0 are
falsy. -/
def truthy : Option Nat → Bool
  | none => false
  | some n => n != 0

/-- The loop guard `max_tries and try_number >= max_tries` from
poll_query_status. -/
def budgetReached (max_tries : Option Nat) (try_number : Nat) : Bool :=
  truthy max_tries && decide (max_tries.getD 0 ≤ try_number)

/-- The break condition of poll_query_status: query_state is neither None nor
an intermediate state (the final `else` branch that sets final_query_state and
breaks). -/
def exitState : Option JobState → Bool
  | none => false
  | some s => !(decide (s ∈ EMRContainerHook.INTERMEDIATE_STATES))

/-- The `while True` loop body of EMRContainerHook.poll_query_status, with the
remote describe outcomes supplied as a finite list (one entry per attempt) and
try_number threaded explicitly.  Each list entry corresponds to exactly one
check_query_status call. -/
def pollLoop : List DescribeResult → Option Nat → Nat → PollResult
  | [], _, _ => .ranOut
  | r :: rest, max_tries, try_number =>
    match EMRContainerHook.check_query_status r with
    | .error _ => .raisedNotFound try_number
    | .ok query_state =>
      if exitState query_state then
        .done query_state try_number
      else if budgetReached max_tries try_number then
        .done query_state try_number
      else
        pollLoop rest max_tries (try_number + 1)

/-- EMRContainerHook.poll_query_status: try_number starts at 1.  The
poll_interval sleep between attempts has no bearing on the returned value and
is not modelled. -/
def EMRContainerHook.poll_query_status (results : List DescribeResult)
    (max_tries : Option Nat) : PollResult :=
  pollLoop results max_tries 1

/-- A describe outcome on which the loop continues to the next attempt
(subject to the budget check): an intermediate state or a swallowed
ClientError (None / Unknown). -/
def continues : DescribeResult → Bool
  | .ok s => decide (s ∈ EMRContainerHook.INTERMEDIATE_STATES)
  | .notFound => false
  | .clientError => true

/-- The attemptsUsed of a poll result, when the loop exited. -/
def attemptsOf : PollResult → Option Nat
  | .done _ n => some n
  | .raisedNotFound n => some n
  | .ranOut => none

/-- Observable outcome of the describe_job_run call made by
get_job_failure_reason: a payload carrying jobRun.failureReason, a payload
missing that key (KeyError), or a ClientError. -/
inductive ReasonFetch where
  | success (failureReason : String)
  | missingKey
  | clientError
  deriving DecidableEq

/-- EMRContainerHook.get_job_failure_reason: returns the failureReason from
the response and absorbs KeyError and ClientError, returning None. -/
def EMRContainerHook.get_job_failure_reason : ReasonFetch → Option String
  | .success r => some r
  | .missingKey => none
  | .clientError => none

/-- The response of start_job_run as read by submit_job: the HTTP status code
from ResponseMetadata, and the possibly-missing keys id and virtualClusterId
(both subscripted on the success path). -/
structure StartJobRunResponse where
  httpStatusCode : Nat
  id : Option String
  virtualClusterId : Option String
  deriving DecidableEq

/-- Outcome of EMRContainerHook.submit_job: the returned job id, the
AirflowException raised on a non-200 status, or the KeyError raised when the
success branch subscripts a missing response key. -/
inductive SubmitOutcome where
  | ok (job_id : String)
  | raisedAirflowException
  | raisedKeyError
  deriving DecidableEq

/-- EMRContainerHook.submit_job, response handling: raises AirflowException
when ResponseMetadata.HTTPStatusCode is not 200; otherwise logs
response[id] and response[virtualClusterId] (KeyError when either key is
absent) and returns response[id]. -/
def EMRContainerHook.submit_job (response : StartJobRunResponse) : SubmitOutcome :=
  if response.httpStatusCode ≠ 200 then
    .raisedAirflowException
  else
    match response.id, response.virtualClusterId with
    | some i, some _ => .ok i
    | _, _ => .raisedKeyError

/-- Python truthiness of an Optional[str]: None and the empty string are
falsy. -/
def strTruthy : Option String → Bool
  | none => false
  | some s => s != ""

/-- The params dict built by EMRContainerHook.submit_job for start_job_run.
jobDriver and configurationOverrides are opaque payloads, modelled as
association lists. -/
structure StartJobRunParams where
  name : String
  virtualClusterId : Option String
  executionRoleArn : String
  releaseLabel : String
  jobDriver : List (String × String)
  configurationOverrides : List (String × String)
  clientToken : Option String
  deriving DecidableEq

/-- The params construction in EMRContainerHook.submit_job:
configurationOverrides defaults to the empty dict via `or` and clientToken is
added only when client_request_token is truthy. -/
def EMRContainerHook.submit_job_params (name : String)
    (virtual_cluster_id : Option String) (execution_role_arn : String)
    (release_label : String) (job_driver : List (String × String))
    (configuration_overrides : Option (List (String × String)))
    (client_request_token : Option String) : StartJobRunParams :=
  ⟨name, virtual_cluster_id, execution_role_arn, release_label, job_driver,
    configuration_overrides.getD [],
    if strTruthy client_request_token then client_request_token else none⟩

/-- Membership test `state in TUPLE` for an Optional[str] state as in the
operator and sensor: None is a member of no tuple of states. -/
def optMem (state : Option JobState) (l : List JobState) : Bool :=
  match state with
  | none => false
  | some s => decide (s ∈ l)

/-- Outcome of EMRContainerOperator.execute: the returned job id, the
Exception raised on a failure-set final state (carrying the error_message
variable), the Exception raised when the final state is falsy or
intermediate, plus the propagated exceptions of the hook calls and the
ranOut marker inherited from the poll model. -/
inductive ExecOutcome where
  | success (job_id : String)
  | raisedFailureState (error_message : String)
  | raisedMaxTriesExceeded
  | raisedNotFound
  | raisedSubmitAirflowException
  | raisedSubmitKeyError
  | ranOut
  deriving DecidableEq

/-- EMRContainerOperator.client_request_token as assigned in the constructor:
`client_request_token or str(uuid4())`, with the fresh UUIDv4 string passed in
explicitly. -/
def EMRContainerOperator.client_request_token (given : Option String)
    (uuid4 : String) : String :=
  match given with
  | some t => if t != "" then t else uuid4
  | none => uuid4

/-- The start_job_run params produced by the submit_job call inside
EMRContainerOperator.execute.  The source calls
hook.submit_job(name, execution_role_arn, release_label, job_driver,
configuration_overrides) with five positional arguments only, so the
client_request_token parameter of submit_job takes its default None. -/
def EMRContainerOperator.execute_submit_params (name : String)
    (virtual_cluster_id : Option String) (execution_role_arn : String)
    (release_label : String) (job_driver : List (String × String))
    (configuration_overrides : List (String × String)) : StartJobRunParams :=
  EMRContainerHook.submit_job_params name virtual_cluster_id execution_role_arn
    release_label job_driver (some configuration_overrides) none

/-- EMRContainerOperator.execute: submit, then poll, then classify the final
state.  In the failure-set branch the source sets
error_message = "BEEP BOOP" (the call fetching the remote failure reason is
commented out in the source) and raises an Exception formatting query_status,
job_id and that error_message. -/
def EMRContainerOperator.execute (response : StartJobRunResponse)
    (results : List DescribeResult) (max_tries : Option Nat) : ExecOutcome :=
  match EMRContainerHook.submit_job response with
  | .raisedAirflowException => .raisedSubmitAirflowException
  | .raisedKeyError => .raisedSubmitKeyError
  | .ok job_id =>
    match EMRContainerHook.poll_query_status results max_tries with
    | .raisedNotFound _ => .raisedNotFound
    | .ranOut => .ranOut
    | .done query_status _ =>
      if optMem query_status EMRContainerHook.FAILURE_STATES then
        .raisedFailureState "BEEP BOOP"
      else if query_status.isNone || optMem query_status EMRContainerHook.INTERMEDIATE_STATES then
        .raisedMaxTriesExceeded
      else
        .success job_id

/-- True exactly on the outcomes where execute raised out of the submit step. -/
def isSubmitRaise : ExecOutcome → Bool
  | .raisedSubmitAirflowException => true
  | .raisedSubmitKeyError => true
  | _ => false

/-- The response of cancel_job_run as read by on_kill: httpStatusCode is None
when subscripting ResponseMetadata.HTTPStatusCode raised (the except branch
leaves http_status_code = None). -/
structure CancelJobRunResponse where
  httpStatusCode : Option Nat
  deriving DecidableEq

/-- EMRContainerHook.stop_query simply issues cancel_job_run and passes its
response through. -/
def EMRContainerHook.stop_query (response : CancelJobRunResponse) : CancelJobRunResponse :=
  response

/-- Outcome of EMRContainerOperator.on_kill: nothing done when job_id is
falsy; a logged return when the cancel acknowledgment is missing or not 200;
otherwise the result of the follow-up unbounded poll. -/
inductive KillOutcome where
  | noJob
  | loggedUnableToCancel
  | polled (result : PollResult)
  deriving DecidableEq

/-- EMRContainerOperator.on_kill: when self.job_id is truthy, call stop_query,
read the acknowledgment status (None when the key access raised), and in the
finally block either log and return (status missing or not 200) or re-poll
with poll_query_status(job_id) - i.e. max_tries None, unbounded. -/
def EMRContainerOperator.on_kill (job_id : Option String)
    (cancel_response : CancelJobRunResponse)
    (results : List DescribeResult) : KillOutcome :=
  if strTruthy job_id then
    let response := EMRContainerHook.stop_query cancel_response
    match response.httpStatusCode with
    | none => .loggedUnableToCancel
    | some code =>
      if code ≠ 200 then
        .loggedUnableToCancel
      else
        .polled (EMRContainerHook.poll_query_status results none)
  else
    .noJob

/-- Sensor constant INTERMEDIATE_STATES (duplicate of the hook constant in
src/emr_containers/sensors/emr_containers.py). -/
def EMRContainerSensor.INTERMEDIATE_STATES : List JobState :=
  [.PENDING, .SUBMITTED, .RUNNING]

/-- Sensor constant FAILURE_STATES. -/
def EMRContainerSensor.FAILURE_STATES : List JobState :=
  [.FAILED, .CANCELLED, .CANCEL_PENDING]

/-- Sensor constant SUCCESS_STATES. -/
def EMRContainerSensor.SUCCESS_STATES : List JobState :=
  [.COMPLETED]

/-- Outcome of EMRContainerSensor.poke: the returned boolean, the
AirflowException raised on a failure-set state, the propagated
AirflowException from the poll (job not found), or ranOut inherited from the
poll model. -/
inductive PokeOutcome where
  | ret (value : Bool)
  | raisedSensorFailed
  | raisedNotFound
  | ranOut
  deriving DecidableEq

/-- EMRContainerSensor.poke: calls
hook.poll_query_status(job_id, self.max_retries) (max_retries defaults to
None), raises on a failure-set state, returns False on an intermediate state
and True otherwise. -/
def EMRContainerSensor.poke (results : List DescribeResult)
    (max_retries : Option Nat) : PokeOutcome :=
  match EMRContainerHook.poll_query_status results max_retries with
  | .raisedNotFound _ => .raisedNotFound
  | .ranOut => .ranOut
  | .done state _ =>
    if optMem state EMRContainerSensor.FAILURE_STATES then
      .raisedSensorFailed
    else if optMem state EMRContainerSensor.INTERMEDIATE_STATES then
      .ret false
    else
      .ret true

/-- The attemptsUsed of the single poll_query_status run performed by one
poke invocation: the number of describe calls that poke issues. -/
def EMRContainerSensor.poke_attempts_used (results : List DescribeResult)
    (max_retries : Option Nat) : Option Nat :=
  attemptsOf (EMRContainerHook.poll_query_status results max_retries)

/-! Helper lemmas about the poll loop.  These are shared infrastructure for
the claim theorems below. -/

theorem terminal_not_intermediate :
    ∀ s ∈ TERMINAL_STATES, s ∉ EMRContainerHook.INTERMEDIATE_STATES := by
  decide

theorem sensor_intermediate_not_failure :
    ∀ s ∈ EMRContainerSensor.INTERMEDIATE_STATES, s ∉ EMRContainerSensor.FAILURE_STATES := by
  decide

theorem sensor_success_not_failure :
    ∀ s ∈ EMRContainerSensor.SUCCESS_STATES, s ∉ EMRContainerSensor.FAILURE_STATES := by
  decide

theorem sensor_success_not_intermediate :
    ∀ s ∈ EMRContainerSensor.SUCCESS_STATES, s ∉ EMRContainerSensor.INTERMEDIATE_STATES := by
  decide

theorem exitState_of_terminal (s : JobState) (hs : s ∈ TERMINAL_STATES) :
    exitState (some s) = true := by
  have h := terminal_not_intermediate s hs
  simp [exitState, h]

theorem exitState_of_intermediate (s : JobState)
    (hs : s ∈ EMRContainerHook.INTERMEDIATE_STATES) :
    exitState (some s) = false := by
  simp [exitState, hs]

theorem continues_ok_of_intermediate (s : JobState)
    (hs : s ∈ EMRContainerHook.INTERMEDIATE_STATES) :
    continues (DescribeResult.ok s) = true := by
  simp [continues, hs]

theorem budget_false (mt : Option Nat) (j : Nat)
    (h : mt.getD 0 = 0 ∨ j < mt.getD 0) : budgetReached mt j = false := by
  cases mt with
  | none => rfl
  | some n =>
    simp only [Option.getD_some] at h
    rcases h with h | h
    · simp [budgetReached, truthy, h]
    · have hn : ¬ (n ≤ j) := by omega
      simp [budgetReached, truthy, hn]

theorem pollLoop_skip_step (r : DescribeResult) (rest : List DescribeResult)
    (mt : Option Nat) (t : Nat) (hr : continues r = true)
    (hb : budgetReached mt t = false) :
    pollLoop (r :: rest) mt t = pollLoop rest mt (t + 1) := by
  cases r with
  | ok s =>
    simp only [continues, decide_eq_true_eq] at hr
    simp [pollLoop, EMRContainerHook.check_query_status, exitState, hr, hb]
  | notFound => simp [continues] at hr
  | clientError =>
    simp [pollLoop, EMRContainerHook.check_query_status, exitState, hb]

theorem pollLoop_skip (pre rest : List DescribeResult) (mt : Option Nat) :
    ∀ t, (∀ r ∈ pre, continues r = true) →
    (∀ j, t ≤ j → j < t + pre.length → budgetReached mt j = false) →
    pollLoop (pre ++ rest) mt t = pollLoop rest mt (t + pre.length) := by
  induction pre with
  | nil => intro t _ _; simp
  | cons r pre ih =>
    intro t hc hb
    have hbt : budgetReached mt t = false := by
      apply hb t le_rfl
      simp only [List.length_cons]
      omega
    rw [List.cons_append, pollLoop_skip_step r (pre ++ rest) mt t (hc r (by simp)) hbt]
    rw [ih (t + 1) (fun x hx => hc x (by simp [hx])) (fun j hj1 hj2 => by
      apply hb j (by omega)
      simp only [List.length_cons]
      omega)]
    simp only [List.length_cons]
    congr 1
    omega

theorem pollLoop_notFound_mem (results : List DescribeResult) (mt : Option Nat) :
    ∀ t k, pollLoop results mt t = PollResult.raisedNotFound k →
    DescribeResult.notFound ∈ results := by
  induction results with
  | nil => intro t k h; simp [pollLoop] at h
  | cons r rest ih =>
    intro t k h
    cases r with
    | notFound => exact List.mem_cons_self _ _
    | ok s =>
      simp only [pollLoop, EMRContainerHook.check_query_status] at h
      split at h
      · simp at h
      · split at h
        · simp at h
        · exact List.mem_cons_of_mem _ (ih _ _ h)
    | clientError =>
      simp only [pollLoop, EMRContainerHook.check_query_status] at h
      split at h
      · simp at h
      · split at h
        · simp at h
        · exact List.mem_cons_of_mem _ (ih _ _ h)

theorem pollLoop_done_none (results : List DescribeResult) (mt : Option Nat) :
    ∀ t k, pollLoop results mt t = PollResult.done none k →
    truthy mt = true ∧ mt.getD 0 ≤ k := by
  induction results with
  | nil => intro t k h; simp [pollLoop] at h
  | cons r rest ih =>
    intro t k h
    cases r with
    | notFound => simp [pollLoop, EMRContainerHook.check_query_status] at h
    | ok s =>
      simp only [pollLoop, EMRContainerHook.check_query_status] at h
      split at h
      next he =>
        injection h with h1 h2
        rw [h1] at he
        simp [exitState] at he
      · split at h
        next hbud =>
          injection h with h1 h2
          unfold budgetReached at hbud
          rw [Bool.and_eq_true] at hbud
          refine ⟨hbud.1, ?_⟩
          have := of_decide_eq_true hbud.2
          omega
        next => exact ih _ _ h
    | clientError =>
      simp only [pollLoop, EMRContainerHook.check_query_status] at h
      split at h
      next he => simp [exitState] at he
      · split at h
        next hbud =>
          injection h with h1 h2
          unfold budgetReached at hbud
          rw [Bool.and_eq_true] at hbud
          refine ⟨hbud.1, ?_⟩
          have := of_decide_eq_true hbud.2
          omega
        next => exact ih _ _ h

theorem pollLoop_attempts_ge (results : List DescribeResult) (mt : Option Nat) :
    ∀ t k, attemptsOf (pollLoop results mt t) = some k → t ≤ k := by
  induction results with
  | nil => intro t k h; simp [pollLoop, attemptsOf] at h
  | cons r rest ih =>
    intro t k h
    cases r with
    | notFound =>
      simp [pollLoop, EMRContainerHook.check_query_status, attemptsOf] at h
      omega
    | ok s =>
      simp only [pollLoop, EMRContainerHook.check_query_status] at h
      split at h
      · simp [attemptsOf] at h
        omega
      · split at h
        · simp [attemptsOf] at h
          omega
        · have := ih _ _ h
          omega
    | clientError =>
      simp only [pollLoop, EMRContainerHook.check_query_status] at h
      split at h
      · simp [attemptsOf] at h
        omega
      · split at h
        · simp [attemptsOf] at h
          omega
        · have := ih _ _ h
          omega

theorem pollLoop_zero (results : List DescribeResult) :
    ∀ t, pollLoop results (some 0) t = pollLoop results none t := by
  induction results with
  | nil => intro t; rfl
  | cons r rest ih =>
    intro t
    cases r with
    | notFound => simp [pollLoop, EMRContainerHook.check_query_status]
    | ok s =>
      simp only [pollLoop, EMRContainerHook.check_query_status]
      by_cases he : exitState (some s) = true
      · simp [he]
      · simp [he, budgetReached, truthy, ih]
    | clientError =>
      simp only [pollLoop, EMRContainerHook.check_query_status]
      simp [exitState, budgetReached, truthy, ih]

theorem pollLoop_all_continues (results : List DescribeResult) (mt : Option Nat)
    (hmt : truthy mt = false) :
    ∀ t, (∀ r ∈ results, continues r = true) →
    pollLoop results mt t = PollResult.ranOut := by
  induction results with
  | nil => intro t _; rfl
  | cons r rest ih =>
    intro t hc
    have hb : budgetReached mt t = false := by simp [budgetReached, hmt]
    rw [pollLoop_skip_step r rest mt t (hc r (by simp)) hb]
    exact ih (t + 1) (fun x hx => hc x (by simp [hx]))

theorem pollLoop_bounded (results : List DescribeResult) :
    ∀ (n t : Nat), n ≠ 0 → t ≤ n → n + 1 ≤ t + results.length →
    ∃ k, attemptsOf (pollLoop results (some n) t) = some k ∧ k ≤ n := by
  induction results with
  | nil =>
    intro n t hn ht hlen
    simp only [List.length_nil] at hlen
    omega
  | cons r rest ih =>
    intro n t hn ht hlen
    cases r with
    | notFound =>
      exact ⟨t, by simp [pollLoop, EMRContainerHook.check_query_status, attemptsOf], ht⟩
    | ok s =>
      by_cases he : exitState (some s) = true
      · exact ⟨t, by simp [pollLoop, EMRContainerHook.check_query_status, he, attemptsOf], ht⟩
      · by_cases hb : budgetReached (some n) t = true
        · refine ⟨t, ?_, ht⟩
          simp [pollLoop, EMRContainerHook.check_query_status, he, hb, attemptsOf]
        · have htn : t < n := by
            simp [budgetReached, truthy, hn] at hb
            omega
          have hrec := ih n (t + 1) hn (by omega)
            (by simp only [List.length_cons] at hlen; omega)
          simpa [pollLoop, EMRContainerHook.check_query_status, he, hb] using hrec
    | clientError =>
      by_cases hb : budgetReached (some n) t = true
      · refine ⟨t, ?_, ht⟩
        simp [pollLoop, EMRContainerHook.check_query_status, exitState, hb, attemptsOf]
      · have htn : t < n := by
          simp [budgetReached, truthy, hn] at hb
          omega
        have hrec := ih n (t + 1) hn (by omega)
          (by simp only [List.length_cons] at hlen; omega)
        simpa [pollLoop, EMRContainerHook.check_query_status, exitState, hb] using hrec

/-! Claim theorems. -/

/-- Claim C1: for every describe-result sequence whose first k-1 observations
are intermediate or Unknown (swallowed ClientError) and whose k-th observation
is a terminal state, and any max_tries budget that does not cut the loop off
before attempt k (None, 0, or at least k), poll_query_status returns that
terminal state with attemptsUsed = k, having consumed exactly the first k
observations (the remainder of the sequence is arbitrary and unused). -/
theorem hook_poll_returns_terminal_at_attempt_k
    (pre rest : List DescribeResult) (s : JobState) (mt : Option Nat)
    (hc : ∀ r ∈ pre, continues r = true)
    (hs : s ∈ TERMINAL_STATES)
    (hb : mt.getD 0 = 0 ∨ pre.length < mt.getD 0) :
    EMRContainerHook.poll_query_status (pre ++ DescribeResult.ok s :: rest) mt
      = PollResult.done (some s) (pre.length + 1) := by
  unfold EMRContainerHook.poll_query_status
  rw [pollLoop_skip pre (DescribeResult.ok s :: rest) mt 1 hc (fun j hj1 hj2 => by
    apply budget_false
    rcases hb with h | h
    · exact Or.inl h
    · exact Or.inr (by omega))]
  rw [Nat.add_comm 1 pre.length]
  have he := exitState_of_terminal s hs
  simp [pollLoop, EMRContainerHook.check_query_status, he]

/-- Witness for C1: sequence [PENDING, Unknown, COMPLETED] with no budget:
the poll returns COMPLETED at attempt 3. -/
theorem hook_poll_returns_terminal_at_attempt_k_witness :
    EMRContainerHook.poll_query_status
        [DescribeResult.ok JobState.PENDING, DescribeResult.clientError,
         DescribeResult.ok JobState.COMPLETED] none
      = PollResult.done (some JobState.COMPLETED) 3 :=
  hook_poll_returns_terminal_at_attempt_k
    [DescribeResult.ok JobState.PENDING, DescribeResult.clientError] []
    JobState.COMPLETED none (by decide) (by decide) (by decide)

/-- Claim C2: with max_tries = N at least 1 and the first N describe outcomes
all intermediate states, poll_query_status returns normally after exactly N
attempts with the last observed intermediate state (here N = pre.length + 1,
the last observed state being sN). -/
theorem hook_poll_budget_exhausted_returns_last_intermediate
    (pre : List JobState) (sN : JobState) (rest : List DescribeResult)
    (hpre : ∀ s ∈ pre, s ∈ EMRContainerHook.INTERMEDIATE_STATES)
    (hsN : sN ∈ EMRContainerHook.INTERMEDIATE_STATES) :
    EMRContainerHook.poll_query_status
        ((pre.map DescribeResult.ok) ++ DescribeResult.ok sN :: rest)
        (some (pre.length + 1))
      = PollResult.done (some sN) (pre.length + 1) := by
  unfold EMRContainerHook.poll_query_status
  rw [pollLoop_skip (pre.map DescribeResult.ok) (DescribeResult.ok sN :: rest)
    (some (pre.length + 1)) 1
    (fun r hr => by
      rcases List.mem_map.mp hr with ⟨s, hsmem, rfl⟩
      exact continues_ok_of_intermediate s (hpre s hsmem))
    (fun j hj1 hj2 => by
      apply budget_false
      right
      simp only [List.length_map] at hj2
      simp only [Option.getD_some]
      omega)]
  simp only [List.length_map]
  rw [Nat.add_comm 1 pre.length]
  have he := exitState_of_intermediate sN hsN
  have hbr : budgetReached (some (pre.length + 1)) (pre.length + 1) = true := by
    simp [budgetReached, truthy]
  simp [pollLoop, EMRContainerHook.check_query_status, he, hbr]

/-- Witness for C2: max_tries = 2 with describe outcomes [RUNNING, RUNNING]:
the poll returns normally with RUNNING after exactly 2 attempts. -/
theorem hook_poll_budget_exhausted_returns_last_intermediate_witness :
    EMRContainerHook.poll_query_status
        [DescribeResult.ok JobState.RUNNING, DescribeResult.ok JobState.RUNNING]
        (some 2)
      = PollResult.done (some JobState.RUNNING) 2 :=
  hook_poll_budget_exhausted_returns_last_intermediate
    [JobState.RUNNING] JobState.RUNNING [] (by decide) (by decide)

/-- Claim C3: a ResourceNotFoundException at attempt k propagates as a fatal
AirflowException from that attempt, regardless of any remaining budget and
without consuming any later observation; a generic ClientError is converted to
None (Unknown) by check_query_status, counts as a used attempt (the loop moves
from try_number t to t + 1), and a poll over a sequence with no
ResourceNotFoundException never propagates that fatal error. -/
theorem hook_poll_notfound_fatal_transient_absorbed
    (pre rest : List DescribeResult) (mt : Option Nat)
    (hc : ∀ r ∈ pre, continues r = true)
    (hb : mt.getD 0 = 0 ∨ pre.length < mt.getD 0) :
    EMRContainerHook.poll_query_status (pre ++ DescribeResult.notFound :: rest) mt
        = PollResult.raisedNotFound (pre.length + 1)
    ∧ EMRContainerHook.check_query_status DescribeResult.clientError = Except.ok none
    ∧ (∀ (tail : List DescribeResult) (mt2 : Option Nat) (t : Nat),
        budgetReached mt2 t = false →
        pollLoop (DescribeResult.clientError :: tail) mt2 t = pollLoop tail mt2 (t + 1))
    ∧ (∀ (results : List DescribeResult) (mt2 : Option Nat) (k : Nat),
        DescribeResult.notFound ∉ results →
        EMRContainerHook.poll_query_status results mt2 ≠ PollResult.raisedNotFound k) := by
  refine ⟨?_, rfl, ?_, ?_⟩
  · unfold EMRContainerHook.poll_query_status
    rw [pollLoop_skip pre (DescribeResult.notFound :: rest) mt 1 hc (fun j hj1 hj2 => by
      apply budget_false
      rcases hb with h | h
      · exact Or.inl h
      · exact Or.inr (by omega))]
    rw [Nat.add_comm 1 pre.length]
    simp [pollLoop, EMRContainerHook.check_query_status]
  · intro tail mt2 t hbf
    exact pollLoop_skip_step DescribeResult.clientError tail mt2 t rfl hbf
  · intro results mt2 k hmem heq
    exact hmem (pollLoop_notFound_mem results mt2 1 k heq)

/-- Witness for C3: a not-found at the very first attempt propagates at
attempt 1; one swallowed ClientError moves the loop from attempt 1 to attempt
2; a poll over [Unknown] with budget 1 does not propagate the fatal error. -/
theorem hook_poll_notfound_fatal_transient_absorbed_witness :
    EMRContainerHook.poll_query_status [DescribeResult.notFound] none
        = PollResult.raisedNotFound 1
    ∧ EMRContainerHook.check_query_status DescribeResult.clientError = Except.ok none
    ∧ pollLoop [DescribeResult.clientError] none 1 = pollLoop [] none 2
    ∧ EMRContainerHook.poll_query_status [DescribeResult.clientError] (some 1)
        ≠ PollResult.raisedNotFound 1 := by
  have h := hook_poll_notfound_fatal_transient_absorbed [] [] none
    (by decide) (by decide)
  exact ⟨h.1, h.2.1, h.2.2.1 [] none 1 (by decide),
    h.2.2.2 [DescribeResult.clientError] (some 1) 1 (by decide)⟩

/-- Counterexample to claim C4 as stated: with max_retries = 1 and a single
describe attempt that fails with a generic ClientError, the poll returns the
Unknown state (None) at budget exhaustion and the sensor poke reports the run
as ready (True), because None is a member of neither FAILURE_STATES nor
INTERMEDIATE_STATES and the fall-through branch returns True. -/
theorem sensor_poke_reports_ready_on_unknown :
    EMRContainerSensor.poke [DescribeResult.clientError] (some 1)
      = PokeOutcome.ret true := by
  rfl

/-- Claim C4 (amended): in the poller, Unknown is never treated as terminal:
a swallowed ClientError always triggers another attempt when the budget is
not yet reached, and a poll can only return the Unknown state through budget
exhaustion (max_tries truthy and attemptsUsed at least max_tries).  In the
sensor's poke, however, a run whose final polled state is Unknown is reported
as ready (true). -/
theorem poller_unknown_triggers_retry :
    (∀ (rest : List DescribeResult) (mt : Option Nat) (t : Nat),
        budgetReached mt t = false →
        pollLoop (DescribeResult.clientError :: rest) mt t = pollLoop rest mt (t + 1))
    ∧ (∀ (results : List DescribeResult) (mt : Option Nat) (k : Nat),
        EMRContainerHook.poll_query_status results mt = PollResult.done none k →
        truthy mt = true ∧ mt.getD 0 ≤ k)
    ∧ EMRContainerSensor.poke [DescribeResult.clientError] (some 1)
        = PokeOutcome.ret true := by
  refine ⟨?_, ?_, rfl⟩
  · intro rest mt t hb
    exact pollLoop_skip_step DescribeResult.clientError rest mt t rfl hb
  · intro results mt k h
    exact pollLoop_done_none results mt 1 k h

/-- Witness for the amended C4: one concrete retry step on Unknown, and one
concrete Unknown return forced by budget exhaustion at max_tries = 2. -/
theorem poller_unknown_triggers_retry_witness :
    pollLoop [DescribeResult.clientError, DescribeResult.clientError] none 4
        = pollLoop [DescribeResult.clientError] none 5
    ∧ (truthy (some 2) = true ∧ (some 2 : Option Nat).getD 0 ≤ 2) := by
  refine ⟨poller_unknown_triggers_retry.1 [DescribeResult.clientError] none 4 rfl, ?_⟩
  exact poller_unknown_triggers_retry.2.1
    [DescribeResult.clientError, DescribeResult.clientError] (some 2) 2 (by decide)

/-- Counterexample to claim C5 as stated: the sensor's poke delegates to
poll_query_status with self.max_retries, which defaults to None, so a single
poke invocation over the describe sequence [PENDING, COMPLETED] issues two
describe calls (attemptsUsed = 2, with a sleep between the attempts inside
poll_query_status) rather than exactly one. -/
theorem sensor_poke_issues_two_describes :
    EMRContainerSensor.poke_attempts_used
        [DescribeResult.ok JobState.PENDING, DescribeResult.ok JobState.COMPLETED]
        none = some 2
    ∧ EMRContainerSensor.poke
        [DescribeResult.ok JobState.PENDING, DescribeResult.ok JobState.COMPLETED]
        none = PokeOutcome.ret true := by
  exact ⟨rfl, rfl⟩

/-- Claim C5 (amended): each poke invocation runs the poller once with budget
max_retries (None by default, hence possibly many describe calls and sleeps
inside that single run; with max_retries = 1 it issues exactly one describe
call whatever the first outcome is), and classifies the final polled state:
it raises a hard failure for every failure-set state, returns false for every
intermediate state, and returns true for the success state. -/
theorem sensor_poke_delegates_and_classifies :
    (∀ (results : List DescribeResult) (mt : Option Nat) (k : Nat) (s : JobState),
        EMRContainerHook.poll_query_status results mt = PollResult.done (some s) k →
          ((s ∈ EMRContainerSensor.FAILURE_STATES →
              EMRContainerSensor.poke results mt = PokeOutcome.raisedSensorFailed)
          ∧ (s ∈ EMRContainerSensor.INTERMEDIATE_STATES →
              EMRContainerSensor.poke results mt = PokeOutcome.ret false)
          ∧ (s ∈ EMRContainerSensor.SUCCESS_STATES →
              EMRContainerSensor.poke results mt = PokeOutcome.ret true)))
    ∧ (∀ (r : DescribeResult) (rest : List DescribeResult),
        EMRContainerSensor.poke_attempts_used (r :: rest) (some 1) = some 1) := by
  constructor
  · intro results mt k s h
    refine ⟨?_, ?_, ?_⟩
    · intro hs
      simp [EMRContainerSensor.poke, h, optMem, hs]
    · intro hs
      have h1 := sensor_intermediate_not_failure s hs
      simp [EMRContainerSensor.poke, h, optMem, hs, h1]
    · intro hs
      have h1 := sensor_success_not_failure s hs
      have h2 := sensor_success_not_intermediate s hs
      simp [EMRContainerSensor.poke, h, optMem, hs, h1, h2]
  · intro r rest
    cases r with
    | ok s => cases s <;> rfl
    | notFound => rfl
    | clientError => rfl

/-- Witness for the amended C5: a poll ending in COMPLETED makes poke return
true, and a poke with max_retries = 1 over a sequence starting with FAILED
issues exactly one describe call. -/
theorem sensor_poke_delegates_and_classifies_witness :
    EMRContainerSensor.poke [DescribeResult.ok JobState.COMPLETED] none
        = PokeOutcome.ret true
    ∧ EMRContainerSensor.poke_attempts_used [DescribeResult.ok JobState.FAILED]
        (some 1) = some 1 := by
  refine ⟨(sensor_poke_delegates_and_classifies.1
    [DescribeResult.ok JobState.COMPLETED] none 1 JobState.COMPLETED rfl).2.2
    (by decide), ?_⟩
  exact sensor_poke_delegates_and_classifies.2 (DescribeResult.ok JobState.FAILED) []

/-- Claim C6 concerns a code bug: when execute observes a failure-set final
state it raises with the hardcoded placeholder error_message "BEEP BOOP"; the
call fetching the remote failure reason is commented out in the source, even
though the hook's get_job_failure_reason would return the remote-supplied
reason (and absorbs its absence).  This theorem evaluates both sides at the
failing input: a submitted job polled to FAILED whose remote failureReason is
"boom". -/
theorem operator_failure_reason_hardcoded :
    EMRContainerOperator.execute ⟨200, some "j-1", some "vc-1"⟩
        [DescribeResult.ok JobState.FAILED] none
      = ExecOutcome.raisedFailureState "BEEP BOOP"
    ∧ EMRContainerHook.get_job_failure_reason (ReasonFetch.success "boom")
      = some "boom" := by
  exact ⟨rfl, rfl⟩

/-- Claim C7 concerns a code bug: the operator constructor stores
client_request_token or str(uuid4()), but execute calls hook.submit_job with
only five positional arguments, so the hook's client_request_token parameter
defaults to None and the start_job_run params never contain a clientToken.
Evaluated here with the token omitted and a fresh uuid "u-123": the token is
generated, yet the submitted params carry no clientToken. -/
theorem operator_token_generated_but_not_sent :
    EMRContainerOperator.client_request_token none "u-123" = "u-123"
    ∧ (EMRContainerOperator.execute_submit_params "job" (some "vc-1")
        "arn:aws:iam::1:role/r" "emr-6.3.0" [] []).clientToken = none := by
  exact ⟨rfl, rfl⟩

/-- Counterexample to claim C8 as stated: a response with HTTP status 200 and
the job identifier present but the virtualClusterId key absent makes
submit_job raise (a KeyError from the success-logging line, which subscripts
response[virtualClusterId]), even though the claim's iff condition for raising
is false there. -/
theorem submit_job_raises_despite_ack_and_id :
    EMRContainerHook.submit_job ⟨200, some "j-1", none⟩
        = SubmitOutcome.raisedKeyError
    ∧ EMRContainerHook.submit_job ⟨200, some "j-1", none⟩
        ≠ SubmitOutcome.ok "j-1" := by
  exact ⟨rfl, by decide⟩

/-- Claim C8 (amended): submit_job raises if and only if the HTTP status code
is not 200 or the response omits the job identifier or the virtual cluster id
(both keys are subscripted on the success path); when it succeeds it returns
exactly the job identifier from the response; and on submission failure
execute raises immediately, issuing no describe/poll calls (its outcome is
independent of the describe sequence). -/
theorem submit_job_success_iff :
    (∀ r : StartJobRunResponse,
        (∃ i, EMRContainerHook.submit_job r = SubmitOutcome.ok i) ↔
          (r.httpStatusCode = 200 ∧ r.id ≠ none ∧ r.virtualClusterId ≠ none))
    ∧ (∀ (r : StartJobRunResponse) (i : String),
        r.httpStatusCode = 200 → r.id = some i → r.virtualClusterId ≠ none →
        EMRContainerHook.submit_job r = SubmitOutcome.ok i)
    ∧ (∀ (r : StartJobRunResponse) (results1 results2 : List DescribeResult)
          (mt : Option Nat),
        (∀ i, EMRContainerHook.submit_job r ≠ SubmitOutcome.ok i) →
        EMRContainerOperator.execute r results1 mt
            = EMRContainerOperator.execute r results2 mt
        ∧ isSubmitRaise (EMRContainerOperator.execute r results1 mt) = true) := by
  refine ⟨?_, ?_, ?_⟩
  · rintro ⟨c, oid, ovc⟩
    constructor
    · rintro ⟨i, hi⟩
      by_cases hc : c = 200
      · cases oid with
        | none => simp [EMRContainerHook.submit_job, hc] at hi
        | some i0 =>
          cases ovc with
          | none => simp [EMRContainerHook.submit_job, hc] at hi
          | some v => exact ⟨hc, by simp, by simp⟩
      · simp [EMRContainerHook.submit_job, hc] at hi
    · rintro ⟨hc, hid, hvc⟩
      simp only at hc hid hvc
      cases oid with
      | none => exact absurd rfl hid
      | some i0 =>
        cases ovc with
        | none => exact absurd rfl hvc
        | some v => exact ⟨i0, by simp [EMRContainerHook.submit_job, hc]⟩
  · rintro ⟨c, oid, ovc⟩ i hc hid hvc
    simp only at hc hid hvc
    subst hc
    subst hid
    cases ovc with
    | none => exact absurd rfl hvc
    | some v => simp [EMRContainerHook.submit_job]
  · intro r results1 results2 mt hfail
    cases hsub : EMRContainerHook.submit_job r with
    | ok i => exact absurd hsub (hfail i)
    | raisedAirflowException =>
      unfold EMRContainerOperator.execute
      rw [hsub]
      exact ⟨rfl, rfl⟩
    | raisedKeyError =>
      unfold EMRContainerOperator.execute
      rw [hsub]
      exact ⟨rfl, rfl⟩

/-- Witness for the amended C8: a 500 response makes execute raise the
submission error independently of the describe sequence, and a well-formed 200
response returns exactly its job id. -/
theorem submit_job_success_iff_witness :
    EMRContainerOperator.execute ⟨500, none, none⟩
          [DescribeResult.ok JobState.COMPLETED] none
        = EMRContainerOperator.execute ⟨500, none, none⟩ [] none
    ∧ isSubmitRaise (EMRContainerOperator.execute ⟨500, none, none⟩
          [DescribeResult.ok JobState.COMPLETED] none) = true
    ∧ EMRContainerHook.submit_job ⟨200, some "j-9", some "vc"⟩
        = SubmitOutcome.ok "j-9" := by
  have h := submit_job_success_iff.2.2 ⟨500, none, none⟩
    [DescribeResult.ok JobState.COMPLETED] [] none
    (by intro i hi; simp [EMRContainerHook.submit_job] at hi)
  exact ⟨h.1, h.2, submit_job_success_iff.2.1 ⟨200, some "j-9", some "vc"⟩ "j-9"
    rfl rfl (by simp)⟩

/-- Claim C9: after a job was submitted (job_id truthy), on_kill issues one
cancel request; when the acknowledgment status is missing or not 200 it only
logs and returns (no exception of its own), and only when the acknowledgment
is 200 does it re-poll with an unbounded budget (max_tries None), a follow-up
poll that never propagates the fatal not-found error as long as the describe
outcomes contain no ResourceNotFoundException (generic transient errors are
absorbed). -/
theorem operator_on_kill_never_raises (job_id : String)
    (resp : CancelJobRunResponse) (results : List DescribeResult)
    (hj : job_id ≠ "") :
    ((resp.httpStatusCode = none ∨ resp.httpStatusCode ≠ some 200) →
        EMRContainerOperator.on_kill (some job_id) resp results
          = KillOutcome.loggedUnableToCancel)
    ∧ (resp.httpStatusCode = some 200 →
        EMRContainerOperator.on_kill (some job_id) resp results
          = KillOutcome.polled (EMRContainerHook.poll_query_status results none))
    ∧ (resp.httpStatusCode = some 200 → DescribeResult.notFound ∉ results →
        ∀ k, EMRContainerOperator.on_kill (some job_id) resp results
          ≠ KillOutcome.polled (PollResult.raisedNotFound k)) := by
  obtain ⟨oc⟩ := resp
  have hjt : strTruthy (some job_id) = true := by simp [strTruthy, hj]
  refine ⟨?_, ?_, ?_⟩
  · intro h
    cases oc with
    | none => simp [EMRContainerOperator.on_kill, EMRContainerHook.stop_query, hjt]
    | some c =>
      rcases h with h | h
      · exact absurd h (by simp)
      · have hc : c ≠ 200 := by
          intro hcc
          exact h (by rw [hcc])
        simp [EMRContainerOperator.on_kill, EMRContainerHook.stop_query, hjt, hc]
  · intro h
    simp only at h
    subst h
    simp [EMRContainerOperator.on_kill, EMRContainerHook.stop_query, hjt]
  · intro h hmem k heq
    simp only at h
    subst h
    have h2 : EMRContainerOperator.on_kill (some job_id) ⟨some 200⟩ results
        = KillOutcome.polled (EMRContainerHook.poll_query_status results none) := by
      simp [EMRContainerOperator.on_kill, EMRContainerHook.stop_query, hjt]
    rw [h2] at heq
    have h3 : EMRContainerHook.poll_query_status results none
        = PollResult.raisedNotFound k := by
      injection heq
    exact hmem (pollLoop_notFound_mem results none 1 k h3)

/-- Witness for C9: a missing acknowledgment only logs and returns, and a 200
acknowledgment re-polls (here observing CANCELLED at attempt 1). -/
theorem operator_on_kill_never_raises_witness :
    EMRContainerOperator.on_kill (some "j-1") ⟨none⟩ []
        = KillOutcome.loggedUnableToCancel
    ∧ EMRContainerOperator.on_kill (some "j-1") ⟨some 200⟩
          [DescribeResult.ok JobState.CANCELLED]
        = KillOutcome.polled (PollResult.done (some JobState.CANCELLED) 1) := by
  refine ⟨(operator_on_kill_never_raises "j-1" ⟨none⟩ [] (by decide)).1
    (Or.inl rfl), ?_⟩
  have h := (operator_on_kill_never_raises "j-1" ⟨some 200⟩
    [DescribeResult.ok JobState.CANCELLED] (by decide)).2.1 rfl
  rw [h]
  rfl

/-- Claim C10: poll_query_status with max_tries = 0 is exactly poll_query_status
with max_tries = None (the budget guard tests Python truthiness), every run
that exits used at least one describe attempt, a max_tries = 0 run over
observations that are all intermediate or Unknown never exits (the loop
outlives every finite observation prefix), and for max_tries = N at least 1
the loop exits within the first N attempts whenever at least N observations
are available. -/
theorem poll_zero_max_tries_unbounded :
    (∀ results : List DescribeResult,
        EMRContainerHook.poll_query_status results (some 0)
          = EMRContainerHook.poll_query_status results none)
    ∧ (∀ (results : List DescribeResult) (mt : Option Nat) (k : Nat),
        attemptsOf (EMRContainerHook.poll_query_status results mt) = some k →
        1 ≤ k)
    ∧ (∀ results : List DescribeResult, (∀ r ∈ results, continues r = true) →
        EMRContainerHook.poll_query_status results (some 0) = PollResult.ranOut)
    ∧ (∀ (N : Nat) (results : List DescribeResult), 1 ≤ N →
        N ≤ results.length →
        ∃ k, attemptsOf (EMRContainerHook.poll_query_status results (some N))
              = some k ∧ k ≤ N) := by
  refine ⟨?_, ?_, ?_, ?_⟩
  · intro results
    exact pollLoop_zero results 1
  · intro results mt k h
    exact pollLoop_attempts_ge results mt 1 k h
  · intro results hc
    exact pollLoop_all_continues results (some 0) rfl 1 hc
  · intro N results hN hlen
    exact pollLoop_bounded results N 1 (by omega) (by omega) (by omega)

/-- Witness for C10: max_tries = 0 over an all-intermediate sequence never
exits (like max_tries None), a run that exits used at least one attempt, and
max_tries = 2 exits within 2 attempts on two Unknown observations. -/
theorem poll_zero_max_tries_unbounded_witness :
    EMRContainerHook.poll_query_status [DescribeResult.ok JobState.RUNNING] (some 0)
        = PollResult.ranOut
    ∧ (1 : Nat) ≤ 1
    ∧ ∃ k, attemptsOf (EMRContainerHook.poll_query_status
          [DescribeResult.clientError, DescribeResult.clientError] (some 2))
        = some k ∧ k ≤ 2 := by
  refine ⟨poll_zero_max_tries_unbounded.2.2.1
    [DescribeResult.ok JobState.RUNNING] (by decide), ?_, ?_⟩
  · exact poll_zero_max_tries_unbounded.2.1
      [DescribeResult.ok JobState.COMPLETED] none 1 (by decide)
  · exact poll_zero_max_tries_unbounded.2.2.2 2
      [DescribeResult.clientError, DescribeResult.clientError]
      (by decide) (by decide)
